/- Verification development for the surgery-video-analyzer repository.
   Shallow embedding of the canonical-record merge (src/app/mongodb_client.py),
   the database wrapper functions (src/app/db_functions.py), the chunked
   analysis pipeline (src/app/vertex_ai_client.py), the live-analysis step
   accumulator (src/app/realtime_video_analyzer.py), and the step-sequence
   reconciliation specified by the comparison prompt (src/app/agent.py). -/
import Mathlib

set_option maxRecDepth 8000

namespace SurgeryAnalyzer

/-! Canonical record store: MongoDBClient.add_to_master_surgeries
    (src/app/mongodb_client.py, lines 50-130).  MongoDB ObjectId values are
    modelled as Nat identifiers; wall-clock timestamps as Nat clock values. -/

/-- Master surgery document stored in the master_surgeries collection. -/
structure MasterRecord where
  id : Nat
  surgery_type : String
  summary : String
  procedure_steps : List String
  created_at : Nat
  last_updated : Nat
deriving Repr, DecidableEq

/-- Master collection state: stored documents in natural order, plus the
identifier the store will assign to the next inserted document. -/
structure MasterCollection where
  records : List MasterRecord
  nextId : Nat
deriving Repr, DecidableEq

/-- The master_id argument of add_to_master_surgeries: a string that parses as
an ObjectId (valid) or a string that ObjectId parsing rejects (invalid); the
caller may also omit it (Option.none at the call site). -/
inductive MasterIdArg where
  | valid (id : Nat)
  | invalid
deriving Repr, DecidableEq

/-- Model of master_collection.find_one on a surgery_type filter: the first
document whose surgery_type equals the given one. -/
def findByType (recs : List MasterRecord) (surgery_type : String) : Option MasterRecord :=
  recs.find? (fun r => r.surgery_type == surgery_type)

/-- Model of master_collection.find_one on an _id filter. -/
def findById (recs : List MasterRecord) (oid : Nat) : Option MasterRecord :=
  recs.find? (fun r => r.id == oid)

/-- Lookup of the document to update, mongodb_client.py lines 71-84: an
explicit master_id is tried first when present; a stale (not found) or invalid
(ObjectId exception) id falls back to the surgery_type search. -/
def lookupExisting (recs : List MasterRecord) (surgery_type : String)
    (master_id : Option MasterIdArg) : Option MasterRecord :=
  match master_id with
  | some (MasterIdArg.valid oid) =>
      match findById recs oid with
      | some r => some r
      | none => findByType recs surgery_type
  | some MasterIdArg.invalid => findByType recs surgery_type
  | none => findByType recs surgery_type

/-- The $set document applied on a match, mongodb_client.py lines 98-109:
summary overwritten, procedure steps appended, last_updated refreshed; all
other fields of the existing document are untouched. -/
def updateExisting (existing : MasterRecord) (procedure_steps : List String)
    (summary : String) (now : Nat) : MasterRecord :=
  { existing with
      summary := summary
      procedure_steps := existing.procedure_steps ++ procedure_steps
      last_updated := now }

/-- The document inserted when no match exists, mongodb_client.py
lines 112-130. -/
def createRecord (newId : Nat) (surgery_type : String) (procedure_steps : List String)
    (summary : String) (now : Nat) : MasterRecord :=
  { id := newId
    surgery_type := surgery_type
    summary := summary
    procedure_steps := procedure_steps
    created_at := now
    last_updated := now }

/-- Model of update_one on an _id filter: replaces the first document carrying
the identifier and leaves every other document in place. -/
def replaceFirstById (recs : List MasterRecord) (oid : Nat) (updated : MasterRecord) :
    List MasterRecord :=
  match recs with
  | [] => []
  | r :: rest =>
      if r.id = oid then updated :: rest else r :: replaceFirstById rest oid updated

/-- MongoDBClient.add_to_master_surgeries (mongodb_client.py lines 50-130):
returns the new collection state and the stringified identifier of the
updated or inserted document. -/
def add_to_master_surgeries (col : MasterCollection) (surgery_type : String)
    (procedure_steps : List String) (summary : String)
    (master_id : Option MasterIdArg) (now : Nat) : MasterCollection × String :=
  match lookupExisting col.records surgery_type master_id with
  | some existing =>
      ({ col with
          records := replaceFirstById col.records existing.id
            (updateExisting existing procedure_steps summary now) },
        toString existing.id)
  | none =>
      ({ records := col.records ++ [createRecord col.nextId surgery_type procedure_steps summary now],
         nextId := col.nextId + 1 },
        toString col.nextId)

/-! Database wrapper functions (src/app/db_functions.py).  A call into the
underlying MongoDB client either yields the stringified document identifier or
raises an exception carrying a message; the outcome is the Except argument. -/

/-- store_analysis_in_db (db_functions.py lines 13-47): the try/except around
mongodb_client.store_analysis.  On success the stringified inserted id is
returned; an exception is logged and rendered as an error string, never
re-raised. -/
def store_analysis_in_db (outcome : Except String String) : String :=
  match outcome with
  | Except.ok analysis_id => analysis_id
  | Except.error e => "Error storing analysis: " ++ e

/-- add_to_master_surgeries_db (db_functions.py lines 84-113): the try/except
around mongodb_client.add_to_master_surgeries. -/
def add_to_master_surgeries_db (outcome : Except String String) : String :=
  match outcome with
  | Except.ok master_id => master_id
  | Except.error e => "Error adding to master surgeries: " ++ e

/-! Chunked analysis pipeline (src/app/vertex_ai_client.py). -/

/-- Left pad of a number to two digits, modelling the 02d format directive. -/
def pad2 (n : Nat) : String :=
  if n < 10 then "0" ++ toString n else toString n

/-- format_timestamp (vertex_ai_client.py lines 106-111): seconds rendered as
zero padded HH:MM:SS. -/
def format_timestamp (seconds : Nat) : String :=
  pad2 (seconds / 3600) ++ ":" ++ pad2 ((seconds % 3600) / 60) ++ ":" ++ pad2 (seconds % 60)

/-- Outcome of one call to the generative model for a chunk: a text response,
a ResourceExhausted exception, or any other exception. -/
inductive CallOutcome where
  | ok (text : String)
  | resourceExhausted (msg : String)
  | otherError (msg : String)
deriving Repr, DecidableEq

/-- The synthetic segment analyze_video_chunk returns from its generic except
handler (vertex_ai_client.py lines 175-179). -/
def analysisErrorSegment (start_time end_time : Nat) (msg : String) : String :=
  "🕒 " ++ format_timestamp start_time ++ " – " ++ format_timestamp end_time ++
    ("\nProcess: Analysis Error\nExplanation: [Error analyzing this segment: " ++ msg ++ "]")

/-- analyze_video_chunk (vertex_ai_client.py lines 113-179) under its tenacity
decorator: stop after 3 attempts, retry only on ResourceExhausted, reraise.
The model call of attempt i has outcome call i.  A text response is returned
as is; any non rate-limit exception is swallowed by the generic handler and
rendered as a synthetic error segment; a ResourceExhausted exception is
re-raised so the decorator runs the next attempt, and after the third such
attempt it propagates (Except.error). -/
def analyze_video_chunk (start_time end_time : Nat) (call : Nat → CallOutcome) :
    Except String String :=
  match call 0 with
  | CallOutcome.ok text => Except.ok text
  | CallOutcome.otherError msg => Except.ok (analysisErrorSegment start_time end_time msg)
  | CallOutcome.resourceExhausted _ =>
      match call 1 with
      | CallOutcome.ok text => Except.ok text
      | CallOutcome.otherError msg => Except.ok (analysisErrorSegment start_time end_time msg)
      | CallOutcome.resourceExhausted _ =>
          match call 2 with
          | CallOutcome.ok text => Except.ok text
          | CallOutcome.otherError msg => Except.ok (analysisErrorSegment start_time end_time msg)
          | CallOutcome.resourceExhausted msg => Except.error msg

/-- Model of the Python str.strip method: whitespace removed from both ends. -/
def strip (s : String) : String :=
  String.mk (((s.data.dropWhile Char.isWhitespace).reverse.dropWhile Char.isWhitespace).reverse)

/-- One outer attempt of the chunk loop in analyze_video (vertex_ai_client.py
lines 244-259): call analyze_video_chunk, then validate the response (truthy
and stripped length over 20); an invalid response raises ValueError, which the
surrounding except treats like any other exception. -/
def attemptChunk (start_time end_time : Nat) (call : Nat → CallOutcome) :
    Except String String :=
  match analyze_video_chunk start_time end_time call with
  | Except.ok t =>
      if t ≠ "" ∧ 20 < (strip t).length then Except.ok t
      else Except.error "Empty or invalid response from API"
  | Except.error msg => Except.error msg

/-- The synthetic segment recorded by the outer loop when all three outer
attempts for a chunk fail (vertex_ai_client.py lines 264-267). -/
def processingFailedSegment (start_time end_time : Nat) (msg : String) : String :=
  "🕒 " ++ format_timestamp start_time ++ " – " ++ format_timestamp end_time ++
    ("\nProcess: Processing Failed\nExplanation: [Unable to analyze this segment after 3 attempts: " ++ msg ++ "]")

/-- One chunk of the pipeline run: its time range and, for outer attempt i and
model call attempt j inside that outer attempt, the model outcome call i j. -/
structure ChunkRun where
  start_time : Nat
  end_time : Nat
  call : Nat → Nat → CallOutcome

/-- The per-chunk processing of analyze_video (vertex_ai_client.py lines
238-273): up to 3 outer attempts, each invoking the decorated
analyze_video_chunk; the returned Bool records whether the entry was also
appended to successful_results (true) or only to results (false). -/
def processChunk (c : ChunkRun) : String × Bool :=
  match attemptChunk c.start_time c.end_time (c.call 0) with
  | Except.ok t => (t, true)
  | Except.error _ =>
      match attemptChunk c.start_time c.end_time (c.call 1) with
      | Except.ok t => (t, true)
      | Except.error _ =>
          match attemptChunk c.start_time c.end_time (c.call 2) with
          | Except.ok t => (t, true)
          | Except.error msg => (processingFailedSegment c.start_time c.end_time msg, false)

/-- generate_summary (vertex_ai_client.py lines 181-208): the model call over
the prompt built from the successful analyses is abstracted as a fallible
function of those analyses; a raised exception degrades to the explicit
placeholder string. -/
def generate_summary (successful_analyses : List String)
    (call : List String → Except String String) : String :=
  match call successful_analyses with
  | Except.ok t => t
  | Except.error e => "✅ Summary\nUnable to generate summary due to error: " ++ e

/-- The pipeline-level failure message of analyze_video (vertex_ai_client.py
lines 292-299). -/
def analysisFailedMessage : String :=
  "❌ Analysis Failed\nUnable to analyze any video segments. This could be due to:\n- API quota limitations\n- Video format incompatibility\n- Network connectivity issues\n- Video content not suitable for analysis\n\nPlease check your setup and try again with a different video."

/-- Composition of the final document (vertex_ai_client.py lines 281-287):
header, the per-chunk sections joined in order, and, when the summary text is
truthy, the summary section. -/
def composeAnalysis (results : List String) (summary : String) : String :=
  "## Video Analysis Results\n\n### Detailed Timestamped Analysis\n\n" ++
    (String.intercalate "\n\n" results ++
      (if summary ≠ "" then "\n\n### Summary of Findings\n\n" ++ summary else ""))

/-- analyze_video (vertex_ai_client.py lines 210-301) after splitting: the
chunks are processed in order; results collects every entry, while
successful_results collects only the entries whose outer attempt succeeded.
When successful_results is empty the pipeline fails with the failure message,
otherwise the composed document with the generated summary is returned. -/
def analyze_video (chunks : List ChunkRun)
    (summaryCall : List String → Except String String) : String :=
  if ((chunks.map processChunk).filter Prod.snd).map Prod.fst = [] then
    analysisFailedMessage
  else
    composeAnalysis ((chunks.map processChunk).map Prod.fst)
      (generate_summary (((chunks.map processChunk).filter Prod.snd).map Prod.fst) summaryCall)

/-! Step-sequence reconciliation.  The reconciliation and master matching are
carried out by the reasoning model following COMPARISON_SURGERY_PROMPT
(src/app/agent.py lines 100-156); no executable implementation exists under
src/, so the algorithm is modelled from the specification, with semantic
equivalence as a delegated boolean capability. -/

/-- A timestamped step of the fresh analysis, as in the line format
HH:MM:SS - HH:MM:SS : description. -/
structure CurrentStep where
  start_time : String
  end_time : String
  description : String
deriving Repr, DecidableEq

/-- Output entry of reconciliation: a missing master step and the timestamp it
should have occurred after. -/
structure MissingStepEntry where
  missing_step : String
  should_occur_after : String
deriving Repr, DecidableEq

/-- Modelled from the spec: locate the step of the fresh sequence that is
semantically equivalent to the given master step and take its end timestamp
(spec section 4.4; prompt Part 2 step 3e).  The spec leaves the anchor
unspecified when the predecessor itself has no equivalent in the fresh
sequence; that case is modelled as the zero anchor. -/
def locateEnd (equiv : String → String → Bool) (current : List CurrentStep)
    (pred : String) : String :=
  match current.find? (fun c => equiv pred c.description) with
  | some c => c.end_time
  | none => "00:00:00"

/-- Modelled from the spec: the should_occur_after anchor of a missing master
step given its predecessor in the master sequence, or none for the first
master step (spec section 4.4; prompt Part 2 steps 3d-3f). -/
def anchorOf (equiv : String → String → Bool) (current : List CurrentStep) :
    Option String → String
  | none => "00:00:00"
  | some p => locateEnd equiv current p

/-- Modelled from the spec: the single-pass reference walk over the remaining
master steps, carrying the predecessor of the head of the remainder. -/
def reconcileFrom (equiv : String → String → Bool) (current : List CurrentStep) :
    Option String → List String → List MissingStepEntry
  | _, [] => []
  | pred, m :: rest =>
      if current.any (fun c => equiv m c.description) then
        reconcileFrom equiv current (some m) rest
      else
        ⟨m, anchorOf equiv current pred⟩ :: reconcileFrom equiv current (some m) rest

/-- Modelled from the spec: reconcile(currentSteps, masterSteps) of spec
section 4.4, emitting one MissingStepEntry per master step with no
semantically equivalent step in the fresh sequence, in master order. -/
def reconcile (equiv : String → String → Bool) (current : List CurrentStep)
    (master : List String) : List MissingStepEntry :=
  reconcileFrom equiv current none master

/-- Each master step paired with its predecessor in the master sequence. -/
def withPredecessors (master : List String) : List (String × Option String) :=
  master.zip (none :: master.map some)

/-- View of a master record as the comparison step sees it. -/
structure MasterView where
  surgery_type : String
  summary : String
  procedure_steps : List String
deriving Repr, DecidableEq

/-- Modelled from the spec: find a matching master record by first comparing
surgery_type and then summary across all master records (prompt Part 2
steps 2 and 4; spec section 4.4 precondition).  The match judgments are
delegated boolean capabilities. -/
def findSimilarMaster (typeMatch summaryMatch : String → String → Bool)
    (surgery_type summary : String) (masters : List MasterView) : Option MasterView :=
  match masters.find? (fun r => typeMatch surgery_type r.surgery_type) with
  | some r => some r
  | none => masters.find? (fun r => summaryMatch summary r.summary)

/-- Result of the whole comparison operation: either the sentinel no-match
outcome or a matched record with the reconciliation output. -/
inductive ComparisonOutcome where
  | noSimilarData
  | matched (current_procedure_steps : List String)
      (master_procedure_steps : List String)
      (missing_steps : List MissingStepEntry)
deriving Repr, DecidableEq

/-- Rendering of a fresh step in the mandated line format. -/
def renderStep (c : CurrentStep) : String :=
  c.start_time ++ " - " ++ c.end_time ++ " : " ++ c.description

/-- Modelled from the spec: the comparison operation (prompt Part 2).  When a
master record matches, the result carries the fresh steps with their original
timestamps, the matched master steps, and the missing-step list; when none
matches, the sentinel outcome is produced. -/
def compare_with_master (typeMatch summaryMatch : String → String → Bool)
    (equiv : String → String → Bool) (current : List CurrentStep)
    (surgery_type summary : String) (masters : List MasterView) : ComparisonOutcome :=
  match findSimilarMaster typeMatch summaryMatch surgery_type summary masters with
  | some r =>
      ComparisonOutcome.matched (current.map renderStep) r.procedure_steps
        (reconcile equiv current r.procedure_steps)
  | none => ComparisonOutcome.noSimilarData

/-- JSON rendering of a string list. -/
def renderStrList (xs : List String) : String :=
  "[" ++ String.intercalate ", " (xs.map (fun s => "\"" ++ s ++ "\"")) ++ "]"

/-- JSON rendering of the missing-step list. -/
def renderMissingList (xs : List MissingStepEntry) : String :=
  "[" ++ String.intercalate ", "
    (xs.map (fun e =>
      "\x7b \"missing_step\": \"" ++ e.missing_step ++
        "\", \"should_occur_after\": \"" ++ e.should_occur_after ++ "\" \x7d")) ++ "]"

/-- Modelled from the spec: the strict machine readable output contract of the
comparison operation (spec section 6): the JSON object, or the bare sentinel
string. -/
def renderComparison : ComparisonOutcome → String
  | ComparisonOutcome.noSimilarData => "no similar data found"
  | ComparisonOutcome.matched cur mas mis =>
      "\x7b \"current_procedure_steps\": " ++ renderStrList cur ++
        (", \"master_procedure_steps\": " ++ renderStrList mas ++
          (", \"missing_steps\": " ++ renderMissingList mis ++ " \x7d"))

/-! Live-analysis step accumulator
    (src/app/realtime_video_analyzer.py lines 256-260). -/

/-- One step of the accumulated_steps update after a frame is analyzed: append
the new procedure step, then keep only the last 20 entries when the list has
grown beyond 20. -/
def pushStep (accumulated_steps : List String) (procedure_step : String) : List String :=
  if 20 < (accumulated_steps ++ [procedure_step]).length then
    (accumulated_steps ++ [procedure_step]).drop
      ((accumulated_steps ++ [procedure_step]).length - 20)
  else
    accumulated_steps ++ [procedure_step]

/-! Helper lemmas. -/

/-- The character data of an appended string is the appended character data. -/
theorem data_append (a b : String) : (a ++ b).data = a.data ++ b.data := by
  cases a with
  | mk da => cases b with
    | mk db => rfl

/-- Appending on the right preserves the first character. -/
theorem head?_of_append {a : String} (b : String) {c : Char}
    (h : a.data.head? = some c) : (a ++ b).data.head? = some c := by
  cases a with
  | mk da =>
    cases da with
    | nil => simp at h
    | cons x xs =>
      cases b with
      | mk db => exact h

/-- Strings with different first characters are different. -/
theorem ne_of_head_ne (a b : String) (ca cb : Char) (ha : a.data.head? = some ca)
    (hb : b.data.head? = some cb) (hne : ca ≠ cb) : a ≠ b := by
  intro h
  rw [h, hb] at ha
  exact hne (Option.some.inj ha).symm

/-- A string with a first character is not empty after appending. -/
theorem append_ne_empty (a b : String) (c : Char) (h : a.data.head? = some c) :
    a ++ b ≠ "" := by
  intro he
  have h2 : (a ++ b).data.head? = some c := head?_of_append b h
  rw [he] at h2
  exact Option.noConfusion h2

/-- The replacing document is a member of the updated list whenever some
stored document carries the identifier. -/
theorem mem_replaceFirstById_self {recs : List MasterRecord} {oid : Nat}
    (u : MasterRecord) (h : ∃ r ∈ recs, r.id = oid) :
    u ∈ replaceFirstById recs oid u := by
  induction recs with
  | nil =>
    rcases h with ⟨r, hr, _⟩
    simp at hr
  | cons r rest ih =>
    rcases h with ⟨q, hq, hqid⟩
    by_cases hid : r.id = oid
    · simp [replaceFirstById, hid]
    · rcases List.mem_cons.mp hq with h1 | h1
      · exact absurd (h1 ▸ hqid) hid
      · simp only [replaceFirstById, if_neg hid]
        exact List.mem_cons_of_mem _ (ih ⟨q, h1, hqid⟩)

/-- A document not carrying the identifier survives the replacement. -/
theorem mem_replaceFirstById_of_ne {recs : List MasterRecord} {oid : Nat}
    (u : MasterRecord) {q : MasterRecord} (hq : q ∈ recs) (hne : q.id ≠ oid) :
    q ∈ replaceFirstById recs oid u := by
  induction recs with
  | nil => simp at hq
  | cons r rest ih =>
    rcases List.mem_cons.mp hq with h1 | h1
    · subst h1
      simp only [replaceFirstById, if_neg hne]
      exact List.mem_cons_self _ _
    · by_cases hid : r.id = oid
      · simp only [replaceFirstById, if_pos hid]
        exact List.mem_cons_of_mem _ h1
      · simp only [replaceFirstById, if_neg hid]
        exact List.mem_cons_of_mem _ (ih h1)

/-- Replacement by identifier does not change the number of documents. -/
theorem length_replaceFirstById (recs : List MasterRecord) (oid : Nat)
    (u : MasterRecord) : (replaceFirstById recs oid u).length = recs.length := by
  induction recs with
  | nil => rfl
  | cons r rest ih =>
    by_cases hid : r.id = oid <;> simp [replaceFirstById, hid, ih]

/-- The document chosen for update is one of the stored documents. -/
theorem lookupExisting_mem {recs : List MasterRecord} {st : String}
    {mid : Option MasterIdArg} {r : MasterRecord}
    (h : lookupExisting recs st mid = some r) : r ∈ recs := by
  cases mid with
  | none => exact List.mem_of_find?_eq_some h
  | some arg =>
    cases arg with
    | invalid => exact List.mem_of_find?_eq_some h
    | valid oid =>
      cases hfb : findById recs oid with
      | some q =>
        simp only [lookupExisting, hfb] at h
        injection h with h2
        subst h2
        exact List.mem_of_find?_eq_some hfb
      | none =>
        simp only [lookupExisting, hfb] at h
        exact List.mem_of_find?_eq_some h

/-- The composed analysis document never coincides with the pipeline failure
message (they start with different characters). -/
theorem composeAnalysis_ne_failedMessage (results : List String) (s : String) :
    composeAnalysis results s ≠ analysisFailedMessage := by
  refine ne_of_head_ne _ _ '#' '❌' ?_ ?_ (by decide)
  · show (("## Video Analysis Results\n\n### Detailed Timestamped Analysis\n\n" : String) ++
      (String.intercalate "\n\n" results ++
        (if s ≠ "" then "\n\n### Summary of Findings\n\n" ++ s else ""))).data.head? = some '#'
    exact head?_of_append _ rfl
  · rfl

/-- Closed form of the reconciliation walk: one entry per master step with no
equivalent in the fresh sequence, paired with the predecessor anchor. -/
theorem reconcileFrom_closed (equiv : String → String → Bool)
    (current : List CurrentStep) :
    ∀ (master : List String) (pred : Option String),
      reconcileFrom equiv current pred master =
        (master.zip (pred :: master.map some)).filterMap (fun mp =>
          if current.any (fun c => equiv mp.1 c.description) then none
          else some ⟨mp.1, anchorOf equiv current mp.2⟩) := by
  intro master
  induction master with
  | nil => intro pred; rfl
  | cons m rest ih =>
    intro pred
    simp only [List.map_cons, List.zip_cons_cons, List.filterMap_cons]
    cases hc : current.any (fun c => equiv m c.description) with
    | true => simp [reconcileFrom, hc, ih (some m)]
    | false => simp [reconcileFrom, hc, ih (some m)]

/-- The length of the accumulated list after a push. -/
theorem pushStep_length (accumulated_steps : List String) (procedure_step : String) :
    (pushStep accumulated_steps procedure_step).length =
      min (accumulated_steps.length + 1) 20 := by
  unfold pushStep
  split <;> rename_i h <;>
    simp only [List.length_drop, List.length_append, List.length_cons,
      List.length_nil] at h ⊢ <;> omega

/-- The accumulated list stays within the bound along any fold. -/
theorem foldl_pushStep_le (frames : List String) :
    ∀ (acc : List String), acc.length ≤ 20 →
      (frames.foldl pushStep acc).length ≤ 20 := by
  induction frames with
  | nil => intro acc h; exact h
  | cons f rest ih =>
    intro acc h
    refine ih (pushStep acc f) ?_
    rw [pushStep_length]
    omega

/-! Claim theorems. -/

/-- C1: when a master record for the supplied surgery_type already exists, the
merge sets its procedure_steps to the existing steps concatenated with the new
steps in that order, with no deduplication and no reordering: the resulting
length is the sum of the two lengths and every prior step is preserved at its
position, and the identifier of the existing record is returned. -/
theorem merge_appends_steps_in_order
    (col : MasterCollection) (surgery_type : String) (procedure_steps : List String)
    (summary : String) (now : Nat) (existing : MasterRecord)
    (h : findByType col.records surgery_type = some existing) :
    (add_to_master_surgeries col surgery_type procedure_steps summary none now).2
        = toString existing.id ∧
    updateExisting existing procedure_steps summary now
        ∈ (add_to_master_surgeries col surgery_type procedure_steps summary none now).1.records ∧
    (updateExisting existing procedure_steps summary now).procedure_steps
        = existing.procedure_steps ++ procedure_steps ∧
    (updateExisting existing procedure_steps summary now).procedure_steps.length
        = existing.procedure_steps.length + procedure_steps.length ∧
    ∀ i, i < existing.procedure_steps.length →
      (updateExisting existing procedure_steps summary now).procedure_steps[i]?
          = existing.procedure_steps[i]? := by
  have hlook : lookupExisting col.records surgery_type none = some existing := h
  refine ⟨?_, ?_, rfl, ?_, ?_⟩
  · simp [add_to_master_surgeries, hlook]
  · simp only [add_to_master_surgeries, hlook]
    exact mem_replaceFirstById_self _ ⟨existing, List.mem_of_find?_eq_some h, rfl⟩
  · simp [updateExisting, List.length_append]
  · intro i hi
    simp [updateExisting, List.getElem?_append, hi]

/-- C1 witness: a concrete second merge of surgery type Appendectomy returns
the identifier of the existing record. -/
theorem merge_appends_steps_in_order_witness :
    (add_to_master_surgeries ⟨[⟨5, "Appendectomy", "old", ["s1", "s2"], 3, 3⟩], 6⟩
        "Appendectomy" ["n1"] "new" none 9).2 = toString 5 :=
  (merge_appends_steps_in_order ⟨[⟨5, "Appendectomy", "old", ["s1", "s2"], 3, 3⟩], 6⟩
      "Appendectomy" ["n1"] "new" 9 ⟨5, "Appendectomy", "old", ["s1", "s2"], 3, 3⟩
      (by decide)).1

/-- C2: an explicit master identifier that resolves to an existing record
routes the merge to that record unconditionally, even when its surgery_type
differs from the supplied one: the returned identifier is that of the resolved
record, its update is a member of the resulting collection, and every record
with a different identifier, whatever its surgery_type, is left in place. -/
theorem explicit_master_id_routes_merge
    (col : MasterCollection) (surgery_type : String) (procedure_steps : List String)
    (summary : String) (now : Nat) (oid : Nat) (r : MasterRecord)
    (h : findById col.records oid = some r)
    (hdiff : r.surgery_type ≠ surgery_type) :
    (add_to_master_surgeries col surgery_type procedure_steps summary
        (some (MasterIdArg.valid oid)) now).2 = toString r.id ∧
    updateExisting r procedure_steps summary now
        ∈ (add_to_master_surgeries col surgery_type procedure_steps summary
            (some (MasterIdArg.valid oid)) now).1.records ∧
    ∀ q ∈ col.records, q.id ≠ r.id →
      q ∈ (add_to_master_surgeries col surgery_type procedure_steps summary
          (some (MasterIdArg.valid oid)) now).1.records := by
  have hlook : lookupExisting col.records surgery_type (some (MasterIdArg.valid oid))
      = some r := by
    simp only [lookupExisting, h]
  refine ⟨?_, ?_, ?_⟩
  · simp [add_to_master_surgeries, hlook]
  · simp only [add_to_master_surgeries, hlook]
    exact mem_replaceFirstById_self _ ⟨r, List.mem_of_find?_eq_some h, rfl⟩
  · intro q hq hne
    simp only [add_to_master_surgeries, hlook]
    exact mem_replaceFirstById_of_ne _ hq hne

/-- C2 witness: a concrete merge with an explicit identifier of a record whose
surgery_type differs from the supplied one returns that record's identifier. -/
theorem explicit_master_id_routes_merge_witness :
    (add_to_master_surgeries ⟨[⟨5, "TypeA", "s", ["a"], 0, 0⟩], 6⟩
        "TypeB" ["b"] "ns" (some (MasterIdArg.valid 5)) 9).2 = toString 5 :=
  (explicit_master_id_routes_merge ⟨[⟨5, "TypeA", "s", ["a"], 0, 0⟩], 6⟩
      "TypeB" ["b"] "ns" 9 5 ⟨5, "TypeA", "s", ["a"], 0, 0⟩
      (by decide) (by decide)).1

/-- C7: when the lookup finds no record (no resolving explicit id and no
record of the supplied surgery_type), exactly one new master record is
created, appended to the collection, whose procedure_steps equal the given
steps verbatim, whose summary equals the given summary, and whose created_at
equals last_updated; the new record's identifier is returned. -/
theorem create_on_no_match
    (col : MasterCollection) (surgery_type : String) (procedure_steps : List String)
    (summary : String) (now : Nat) (master_id : Option MasterIdArg)
    (h : lookupExisting col.records surgery_type master_id = none) :
    (add_to_master_surgeries col surgery_type procedure_steps summary master_id now).1.records
        = col.records ++ [createRecord col.nextId surgery_type procedure_steps summary now] ∧
    (add_to_master_surgeries col surgery_type procedure_steps summary master_id now).1.records.length
        = col.records.length + 1 ∧
    (add_to_master_surgeries col surgery_type procedure_steps summary master_id now).2
        = toString col.nextId ∧
    (createRecord col.nextId surgery_type procedure_steps summary now).procedure_steps
        = procedure_steps ∧
    (createRecord col.nextId surgery_type procedure_steps summary now).summary = summary ∧
    (createRecord col.nextId surgery_type procedure_steps summary now).created_at
        = (createRecord col.nextId surgery_type procedure_steps summary now).last_updated := by
  refine ⟨?_, ?_, ?_, rfl, rfl, rfl⟩ <;>
    simp [add_to_master_surgeries, h, List.length_append]

/-- C7 witness: merging into an empty collection creates the single new
record. -/
theorem create_on_no_match_witness :
    (add_to_master_surgeries ⟨[], 0⟩ "X" ["p1", "p2"] "s" none 7).1.records
        = [] ++ [createRecord 0 "X" ["p1", "p2"] "s" 7] :=
  (create_on_no_match ⟨[], 0⟩ "X" ["p1", "p2"] "s" 7 none (by decide)).1

/-- C8: a merge into an existing master record modifies only summary,
procedure_steps and last_updated; the record's created_at, surgery_type and
identifier are unchanged, every other record is left in place, and no record
is deleted (the collection keeps its length). -/
theorem merge_preserves_frame
    (col : MasterCollection) (surgery_type : String) (procedure_steps : List String)
    (summary : String) (now : Nat) (master_id : Option MasterIdArg)
    (existing : MasterRecord)
    (h : lookupExisting col.records surgery_type master_id = some existing)
    (hnodup : (col.records.map MasterRecord.id).Nodup) :
    (add_to_master_surgeries col surgery_type procedure_steps summary master_id now).1.records.length
        = col.records.length ∧
    (∀ q ∈ col.records, q ≠ existing →
      q ∈ (add_to_master_surgeries col surgery_type procedure_steps summary master_id now).1.records) ∧
    updateExisting existing procedure_steps summary now
        ∈ (add_to_master_surgeries col surgery_type procedure_steps summary master_id now).1.records ∧
    (updateExisting existing procedure_steps summary now).id = existing.id ∧
    (updateExisting existing procedure_steps summary now).surgery_type = existing.surgery_type ∧
    (updateExisting existing procedure_steps summary now).created_at = existing.created_at ∧
    (updateExisting existing procedure_steps summary now).summary = summary ∧
    (updateExisting existing procedure_steps summary now).procedure_steps
        = existing.procedure_steps ++ procedure_steps ∧
    (updateExisting existing procedure_steps summary now).last_updated = now := by
  have hmem : existing ∈ col.records := lookupExisting_mem h
  refine ⟨?_, ?_, ?_, rfl, rfl, rfl, rfl, rfl, rfl⟩
  · simp [add_to_master_surgeries, h, length_replaceFirstById]
  · intro q hq hne
    have hid : q.id ≠ existing.id := fun he =>
      hne (List.inj_on_of_nodup_map hnodup hq hmem he)
    simp only [add_to_master_surgeries, h]
    exact mem_replaceFirstById_of_ne _ hq hid
  · simp only [add_to_master_surgeries, h]
    exact mem_replaceFirstById_self _ ⟨existing, hmem, rfl⟩

/-- C8 witness: a concrete merge into a two-record collection keeps both
records. -/
theorem merge_preserves_frame_witness :
    (add_to_master_surgeries
        ⟨[⟨1, "TypeA", "sa", ["a"], 0, 0⟩, ⟨2, "TypeB", "sb", ["b"], 1, 1⟩], 3⟩
        "TypeB" ["b2"] "sb2" none 9).1.records.length
      = [⟨1, "TypeA", "sa", ["a"], 0, 0⟩, (⟨2, "TypeB", "sb", ["b"], 1, 1⟩ : MasterRecord)].length :=
  (merge_preserves_frame
      ⟨[⟨1, "TypeA", "sa", ["a"], 0, 0⟩, ⟨2, "TypeB", "sb", ["b"], 1, 1⟩], 3⟩
      "TypeB" ["b2"] "sb2" 9 none ⟨2, "TypeB", "sb", ["b"], 1, 1⟩
      (by decide) (by decide)).1

/-- C9: failures of the underlying store during store_analysis_in_db or
add_to_master_surgeries_db never propagate as exceptions (both wrappers are
total on every outcome); each failure is rendered as a descriptive string
beginning with the Error marker, while a success returns the plain
identifier. -/
theorem db_errors_returned_as_strings :
    (∀ e, store_analysis_in_db (Except.error e) = "Error storing analysis: " ++ e) ∧
    (∀ e, ∃ rest, store_analysis_in_db (Except.error e) = "Error" ++ rest) ∧
    (∀ s, store_analysis_in_db (Except.ok s) = s) ∧
    (∀ e, add_to_master_surgeries_db (Except.error e)
        = "Error adding to master surgeries: " ++ e) ∧
    (∀ e, ∃ rest, add_to_master_surgeries_db (Except.error e) = "Error" ++ rest) ∧
    (∀ s, add_to_master_surgeries_db (Except.ok s) = s) := by
  refine ⟨fun e => rfl, fun e => ⟨" storing analysis: " ++ e, ?_⟩, fun s => rfl,
    fun e => rfl, fun e => ⟨" adding to master surgeries: " ++ e, ?_⟩, fun s => rfl⟩
  · show "Error storing analysis: " ++ e = "Error" ++ (" storing analysis: " ++ e)
    rw [← String.append_assoc]
    rfl
  · show "Error adding to master surgeries: " ++ e
        = "Error" ++ (" adding to master surgeries: " ++ e)
    rw [← String.append_assoc]
    rfl

/-- C10: the accumulated step list of the live-analysis role never exceeds 20
entries: each push yields length min (previous + 1) 20, hence at most 20, the
bound is an invariant of any processed frame sequence starting from the empty
list, and when the previous list already holds 20 or more entries the push
truncates to the most recent entries of the appended list. -/
theorem accumulated_steps_bounded :
    (∀ (accumulated_steps : List String) (procedure_step : String),
      (pushStep accumulated_steps procedure_step).length
          = min (accumulated_steps.length + 1) 20) ∧
    (∀ (accumulated_steps : List String) (procedure_step : String),
      (pushStep accumulated_steps procedure_step).length ≤ 20) ∧
    (∀ (frames : List String), (frames.foldl pushStep []).length ≤ 20) ∧
    (∀ (accumulated_steps : List String) (procedure_step : String),
      20 ≤ accumulated_steps.length →
      pushStep accumulated_steps procedure_step
          = (accumulated_steps ++ [procedure_step]).drop
              (accumulated_steps.length + 1 - 20)) := by
  refine ⟨pushStep_length, ?_, ?_, ?_⟩
  · intro acc s
    rw [pushStep_length]
    omega
  · intro frames
    exact foldl_pushStep_le frames [] (by simp)
  · intro acc s h
    have hgt : 20 < (acc ++ [s]).length := by
      simp only [List.length_append, List.length_cons, List.length_nil]
      omega
    unfold pushStep
    rw [if_pos hgt]
    simp only [List.length_append, List.length_cons, List.length_nil]

/-- C10 witness: pushing onto a list of exactly 20 steps drops the oldest
entry. -/
theorem accumulated_steps_bounded_witness :
    pushStep (List.replicate 20 "x") "y"
        = (List.replicate 20 "x" ++ ["y"]).drop ((List.replicate 20 "x").length + 1 - 20) :=
  accumulated_steps_bounded.2.2.2 (List.replicate 20 "x") "y" (by decide)

/-- C3: reconciliation emits, in master-sequence order, exactly one entry per
master step with no semantically equivalent step in the fresh sequence; its
anchor is the end timestamp of the master predecessor as located in the fresh
sequence, and the zero timestamp when the missing step is the first master
step.  The closed form pairs each master step with its predecessor; the
remaining conjuncts pin the anchor down and check the example of the spec. -/
theorem reconcile_missing_steps_characterization :
    (∀ (equiv : String → String → Bool) (current : List CurrentStep)
        (master : List String),
      reconcile equiv current master =
        (withPredecessors master).filterMap (fun mp =>
          if current.any (fun c => equiv mp.1 c.description) then none
          else some ⟨mp.1, anchorOf equiv current mp.2⟩)) ∧
    (∀ (equiv : String → String → Bool) (current : List CurrentStep)
        (p : String) (c : CurrentStep),
      current.find? (fun s => equiv p s.description) = some c →
      anchorOf equiv current (some p) = c.end_time) ∧
    (∀ (equiv : String → String → Bool) (current : List CurrentStep),
      anchorOf equiv current none = "00:00:00") ∧
    reconcile (fun a b => a == b)
        [⟨"00:00:00", "00:00:05", "A"⟩, ⟨"00:00:05", "00:00:10", "C"⟩]
        ["A", "B", "C"]
      = [⟨"B", "00:00:05"⟩] := by
  refine ⟨?_, ?_, fun equiv current => rfl, by decide⟩
  · intro equiv current master
    exact reconcileFrom_closed equiv current master none
  · intro equiv current p c h
    simp [anchorOf, locateEnd, h]

/-- C3 witness: the anchor of a missing step whose predecessor is located in
the fresh sequence is that predecessor's end timestamp. -/
theorem reconcile_missing_steps_characterization_witness :
    anchorOf (fun a b => a == b) [⟨"00:00:00", "00:00:05", "A"⟩] (some "A")
        = "00:00:05" :=
  reconcile_missing_steps_characterization.2.1 (fun a b => a == b)
    [⟨"00:00:00", "00:00:05", "A"⟩] "A" ⟨"00:00:00", "00:00:05", "A"⟩ (by decide)

/-- C4: when no master record matches by surgery_type and then by summary, the
comparison yields the sentinel outcome, a successful value (the operation is a
total function into ComparisonOutcome, not an error channel); the sentinel is
a distinct constructor from every matched outcome, its rendering is the bare
sentinel string, and the rendering of a matched outcome with an empty
missing-steps list is not the sentinel string, so the two outcomes are never
conflated. -/
theorem no_match_yields_sentinel :
    (∀ (typeMatch summaryMatch equiv : String → String → Bool)
        (current : List CurrentStep) (surgery_type summary : String)
        (masters : List MasterView),
      masters.find? (fun r => typeMatch surgery_type r.surgery_type) = none →
      masters.find? (fun r => summaryMatch summary r.summary) = none →
      compare_with_master typeMatch summaryMatch equiv current surgery_type summary masters
          = ComparisonOutcome.noSimilarData) ∧
    (∀ cur mas mis,
      ComparisonOutcome.noSimilarData ≠ ComparisonOutcome.matched cur mas mis) ∧
    renderComparison ComparisonOutcome.noSimilarData = "no similar data found" ∧
    renderComparison (ComparisonOutcome.matched [] [] []) ≠ "no similar data found" := by
  refine ⟨?_, ?_, rfl, by decide⟩
  · intro typeMatch summaryMatch equiv current surgery_type summary masters h1 h2
    simp [compare_with_master, findSimilarMaster, h1, h2]
  · intro cur mas mis h
    exact ComparisonOutcome.noConfusion h

/-- C4 witness: against an empty master store the comparison yields the
sentinel outcome. -/
theorem no_match_yields_sentinel_witness :
    compare_with_master (fun _ _ => true) (fun _ _ => true) (fun _ _ => true)
        [] "t" "s" [] = ComparisonOutcome.noSimilarData :=
  no_match_yields_sentinel.1 (fun _ _ => true) (fun _ _ => true) (fun _ _ => true)
    [] "t" "s" [] rfl rfl

/-- C5 counterexample: a run with one succeeding chunk whose summary model
call succeeds with empty text returns a composed document with no summary
section at all, falsifying the claim that any run with a succeeding chunk
contains a summary section. -/
theorem pipeline_summary_section_counterexample :
    analyze_video [⟨0, 600, fun _ _ => CallOutcome.ok "abcdefghijklmnopqrstuvwxyz"⟩]
        (fun _ => Except.ok "") =
      "## Video Analysis Results\n\n### Detailed Timestamped Analysis\n\nabcdefghijklmnopqrstuvwxyz" ∧
    ¬ ("### Summary of Findings".data <:+:
        ("## Video Analysis Results\n\n### Detailed Timestamped Analysis\n\nabcdefghijklmnopqrstuvwxyz" : String).data) :=
  ⟨by decide, by decide⟩

/-- C5 (amended): the pipeline returns the failure message exactly when the
successful-results list is empty after processing all chunks (including the
zero-chunk case); otherwise it returns the composed document of header, the
per-chunk sections in order, and, whenever the generated summary text is
non-empty, the summary section; a summary-pass failure degrades to an
explicit non-empty placeholder instead of aborting, so a summary section is
only ever absent when the summary model call succeeds with empty text. -/
theorem pipeline_failure_iff_no_success :
    (∀ (chunks : List ChunkRun) (summaryCall : List String → Except String String),
      ((chunks.map processChunk).filter Prod.snd).map Prod.fst = [] →
      analyze_video chunks summaryCall = analysisFailedMessage) ∧
    (∀ (chunks : List ChunkRun) (summaryCall : List String → Except String String),
      ((chunks.map processChunk).filter Prod.snd).map Prod.fst ≠ [] →
      analyze_video chunks summaryCall =
        composeAnalysis ((chunks.map processChunk).map Prod.fst)
          (generate_summary (((chunks.map processChunk).filter Prod.snd).map Prod.fst)
            summaryCall) ∧
      analyze_video chunks summaryCall ≠ analysisFailedMessage) ∧
    (∀ (results : List String) (summary : String), summary ≠ "" →
      composeAnalysis results summary =
        "## Video Analysis Results\n\n### Detailed Timestamped Analysis\n\n" ++
          (String.intercalate "\n\n" results ++
            ("\n\n### Summary of Findings\n\n" ++ summary))) ∧
    (∀ (analyses : List String) (e : String),
      generate_summary analyses (fun _ => Except.error e) =
          "✅ Summary\nUnable to generate summary due to error: " ++ e ∧
      generate_summary analyses (fun _ => Except.error e) ≠ "") := by
  refine ⟨?_, ?_, ?_, ?_⟩
  · intro chunks summaryCall h
    rw [analyze_video, if_pos h]
  · intro chunks summaryCall h
    rw [analyze_video, if_neg h]
    exact ⟨rfl, composeAnalysis_ne_failedMessage _ _⟩
  · intro results summary h
    simp [composeAnalysis, h]
  · intro analyses e
    refine ⟨rfl, ?_⟩
    show "✅ Summary\nUnable to generate summary due to error: " ++ e ≠ ""
    exact append_ne_empty _ _ '✅' rfl

/-- C5 witness: the zero-chunk run fails at pipeline level. -/
theorem pipeline_failure_iff_no_success_witness :
    analyze_video [] (fun _ => Except.ok "s") = analysisFailedMessage :=
  pipeline_failure_iff_no_success.1 [] (fun _ => Except.ok "s") rfl

/-- C6 counterexample: a chunk whose only model-call error is a non rate-limit
failure is converted to the synthetic Analysis Error segment, which passes the
length validation and is counted as a successful result (flag true), and a run
made only of such chunks does not fail at pipeline level — so the synthetic
entry is not counted as a per-chunk failure. -/
theorem chunk_error_counted_as_success_counterexample :
    processChunk ⟨0, 600, fun _ _ => CallOutcome.otherError "model failure"⟩ =
      (analysisErrorSegment 0 600 "model failure", true) ∧
    analyze_video [⟨0, 600, fun _ _ => CallOutcome.otherError "model failure"⟩]
        (fun _ => Except.error "quota") ≠ analysisFailedMessage :=
  ⟨by decide, by decide⟩

/-- C6 (amended): each chunk is guarded by two nested retry mechanisms.  The
decorated analyze_video_chunk retries its model call only on
resource-exhausted errors, up to 3 attempts, re-raising after the third; a
success returns at once, and any other model-call error is caught at once
(never retried by the decorator) and converted into a synthetic error-segment
entry carrying the chunk's time range and failure reason.  That synthetic
entry is then counted by the outer loop as a successful result, not as a
per-chunk failure.  The outer loop separately retries raised errors up to 3
outer attempts (so persistent rate-limit exhaustion consumes up to 9 model
calls, and a chunk can still succeed on the seventh call); only an error
surviving all three outer attempts becomes a Processing Failed segment
counted as a non-fatal per-chunk failure, and processing continues. -/
theorem chunk_retry_and_error_accounting :
    (∀ (s e : Nat) (t : String) (call : Nat → CallOutcome),
      call 0 = CallOutcome.ok t →
      analyze_video_chunk s e call = Except.ok t) ∧
    (∀ (s e : Nat) (m : String) (call : Nat → CallOutcome),
      call 0 = CallOutcome.otherError m →
      analyze_video_chunk s e call = Except.ok (analysisErrorSegment s e m)) ∧
    (∀ (s e : Nat) (m0 m1 : String) (t : String) (call : Nat → CallOutcome),
      call 0 = CallOutcome.resourceExhausted m0 →
      call 1 = CallOutcome.resourceExhausted m1 →
      call 2 = CallOutcome.ok t →
      analyze_video_chunk s e call = Except.ok t) ∧
    (∀ (s e : Nat) (m0 m1 m2 : String) (call : Nat → CallOutcome),
      call 0 = CallOutcome.resourceExhausted m0 →
      call 1 = CallOutcome.resourceExhausted m1 →
      call 2 = CallOutcome.resourceExhausted m2 →
      analyze_video_chunk s e call = Except.error m2) ∧
    (∀ (c : ChunkRun) (m : String),
      c.call 0 0 = CallOutcome.otherError m →
      analysisErrorSegment c.start_time c.end_time m ≠ "" →
      20 < (strip (analysisErrorSegment c.start_time c.end_time m)).length →
      processChunk c = (analysisErrorSegment c.start_time c.end_time m, true)) ∧
    (∀ (c : ChunkRun) (m : String) (t : String),
      (∀ j, c.call 0 j = CallOutcome.resourceExhausted m) →
      (∀ j, c.call 1 j = CallOutcome.resourceExhausted m) →
      c.call 2 0 = CallOutcome.ok t → t ≠ "" → 20 < (strip t).length →
      processChunk c = (t, true)) ∧
    (∀ (c : ChunkRun) (m : String),
      (∀ i j, c.call i j = CallOutcome.resourceExhausted m) →
      processChunk c = (processingFailedSegment c.start_time c.end_time m, false)) := by
  refine ⟨?_, ?_, ?_, ?_, ?_, ?_, ?_⟩
  · intro s e t call h
    simp [analyze_video_chunk, h]
  · intro s e m call h
    simp [analyze_video_chunk, h]
  · intro s e m0 m1 t call h0 h1 h2
    simp [analyze_video_chunk, h0, h1, h2]
  · intro s e m0 m1 m2 call h0 h1 h2
    simp [analyze_video_chunk, h0, h1, h2]
  · intro c m h hne hlen
    simp [processChunk, attemptChunk, analyze_video_chunk, h, hne, hlen]
  · intro c m t h0 h1 h2 hne hlen
    simp [processChunk, attemptChunk, analyze_video_chunk, h0, h1, h2, hne, hlen]
  · intro c m h
    simp [processChunk, attemptChunk, analyze_video_chunk, h]

/-- C6 witness: a single non rate-limit model error yields the synthetic
error segment from the decorated call. -/
theorem chunk_retry_and_error_accounting_witness :
    analyze_video_chunk 0 600 (fun _ => CallOutcome.otherError "boom")
        = Except.ok (analysisErrorSegment 0 600 "boom") :=
  chunk_retry_and_error_accounting.2.1 0 600 "boom"
    (fun _ => CallOutcome.otherError "boom") rfl

end SurgeryAnalyzer
